import Mathlib

/-!
Verification of the contract-service core (contract lifecycle state machine,
versioning, party ledger, audit log) of the `contractify_microservices`
repository, as a shallow embedding in Lean 4.

The embedding follows `contract_service/services/contracts_service.py` and
`contract_service/repositories/contracts_repository.py`.  The database session
is modelled as an explicit state value (`DBState`) holding the four tables;
each service function is a pure function from the state (plus request data) to
`Except ServiceError DBState` (or a response value).  A Python `raise
ServiceError(...)` before `session.commit()` aborts the transaction, so an
`Except.error` result carries no modified state: the pre-call state stands.

Machine representation choices:
* timestamps are abstract `Nat` ticks (`datetime.utcnow()` is passed in as a
  `now` parameter);
* database-generated UUID primary keys (`gen_random_uuid()`) are supplied by
  the caller as explicit parameters, standing for the values the database
  would generate; columns never read by the verified operations
  (`created_at`, `updated_at` of rows, version/log row ids) are omitted;
* JSONB payloads (`metadata`, audit `details`) are association lists; the
  detail values actually produced by the service are strings, naturals,
  booleans, null, or flat string-valued objects, captured by `JsonValue`.
-/

namespace Contractify

/-- JSON-compatible values appearing in `metadata` and audit `details`
payloads of the service (strings, naturals, booleans, null, and flat
string-valued objects such as `{"changedFields": {"title": ...}}`). -/
inductive JsonValue where
  | str : String → JsonValue
  | num : Nat → JsonValue
  | bool : Bool → JsonValue
  | null : JsonValue
  | obj : List (String × String) → JsonValue
deriving DecidableEq, Repr

/-- Row of `contracts.contracts` (`repositories/models.py`, class `Contract`).
`created_at`/`updated_at` are never read by the verified operations and are
omitted. -/
structure Contract where
  id : String
  title : String
  contract_type : String
  template_id : String
  owner_user_id : String
  status : String
  metadata : List (String × String)
  signed_at : Option Nat
  deleted_at : Option Nat
deriving DecidableEq, Repr

/-- Row of `contracts.contract_versions` (class `ContractVersion`); the row id
and `created_at` are never read by the verified operations and are omitted. -/
structure Version where
  contract_id : String
  version : Nat
  content : String
  source : String
  created_by : String
deriving DecidableEq, Repr

/-- Row of `contracts.contract_parties` (class `ContractParty`); `signed_at`
and `created_at` are never read by the verified operations and are omitted. -/
structure Party where
  id : String
  contract_id : String
  role : String
  name : String
  email : String
  signature_status : String
  signing_order : Nat
deriving DecidableEq, Repr

/-- Row of `contracts.activity_logs` (class `ActivityLog`); the row id and
`timestamp` are omitted, append order is kept by the list. -/
structure ActivityEntry where
  contract_id : String
  action : String
  user_id : String
  user_name : String
  details : List (String × JsonValue)
deriving DecidableEq, Repr

/-- The database session state: the four tables, rows in insertion order
(`session.add` appends). -/
structure DBState where
  contracts : List Contract
  versions : List Version
  parties : List Party
  logs : List ActivityEntry
deriving DecidableEq, Repr

/-- `UserContext` from `services/contracts_service.py`; `user_name` is the
property returning `user_email`. -/
structure UserContext where
  user_id : String
  user_email : String
deriving DecidableEq, Repr

def UserContext.user_name (u : UserContext) : String := u.user_email

/-- `ServiceError(status_code, message)` from `services/contracts_service.py`. -/
structure ServiceError where
  statusCode : Nat
  message : String
deriving DecidableEq, Repr

/-! ## Repository layer (`repositories/contracts_repository.py`) -/

/-- `get_contract` (default `include_deleted=False`): the contract row with
the given id that is not soft-deleted. -/
def get_contract (s : DBState) (contract_id : String) : Option Contract :=
  s.contracts.find? (fun c => c.id == contract_id && c.deleted_at.isNone)

/-- `create_contract`: inserts a contract row with status `"DRAFT"`; the
database-generated id is the `new_id` parameter. -/
def create_contract (s : DBState) (new_id title contract_type template_id
    owner_user_id : String) (metadata : List (String × String)) : DBState :=
  { s with contracts := s.contracts ++
      [{ id := new_id, title := title, contract_type := contract_type,
         template_id := template_id, owner_user_id := owner_user_id,
         status := "DRAFT", metadata := metadata, signed_at := none,
         deleted_at := none }] }

/-- The field dictionaries actually passed to `update_contract_fields` by the
service: an optional new title, an optional new status, and an optional
assignment to `signed_at` (`set_signed_at = some v` writes `signed_at := v`). -/
structure ContractFieldUpdate where
  title : Option String := none
  status : Option String := none
  set_signed_at : Option (Option Nat) := none
deriving DecidableEq, Repr

def applyFields (f : ContractFieldUpdate) (c : Contract) : Contract :=
  { c with
    title := f.title.getD c.title,
    status := f.status.getD c.status,
    signed_at := f.set_signed_at.getD c.signed_at }

/-- `update_contract_fields`: `if not fields: return` (empty dict is a no-op),
else `UPDATE contracts SET ... WHERE id = contract_id` (no soft-delete
filter). -/
def update_contract_fields (s : DBState) (contract_id : String)
    (f : ContractFieldUpdate) : DBState :=
  if f = {} then s
  else { s with contracts :=
    s.contracts.map (fun c => if c.id == contract_id then applyFields f c else c) }

/-- `add_version`: unconditionally inserts a version row (there is no
duplicate- or ordering-check in the repository). -/
def add_version (s : DBState) (contract_id : String) (version : Nat)
    (content source created_by : String) : DBState :=
  { s with versions := s.versions ++
      [{ contract_id := contract_id, version := version, content := content,
         source := source, created_by := created_by }] }

/-- The version rows of one contract, in insertion order. -/
def filteredVersions (s : DBState) (contract_id : String) : List Version :=
  s.versions.filter (fun v => v.contract_id == contract_id)

/-- One step of `ORDER BY version DESC LIMIT 1`: keep the row with the larger
version number (the first one seen, on ties). -/
def pickLatest (acc : Option Version) (v : Version) : Option Version :=
  match acc with
  | none => some v
  | some w => if v.version > w.version then some v else some w

/-- `get_latest_version`: the version row of the contract with the maximum
version number, or `none` when the contract has no versions. -/
def get_latest_version (s : DBState) (contract_id : String) : Option Version :=
  (filteredVersions s contract_id).foldl pickLatest none

/-- The service-level reading `latest_version.content if latest_version else ""`. -/
def currentContent (s : DBState) (contract_id : String) : String :=
  match get_latest_version s contract_id with
  | some v => v.content
  | none => ""

/-- Stable insertion into a list sorted by ascending `signing_order`. -/
def insertByOrder (p : Party) : List Party → List Party
  | [] => [p]
  | q :: qs =>
      if p.signing_order ≤ q.signing_order then p :: q :: qs
      else q :: insertByOrder p qs

/-- Stable sort by ascending `signing_order` (the `ORDER BY signing_order` of
`list_parties`). -/
def sortByOrder : List Party → List Party
  | [] => []
  | p :: ps => insertByOrder p (sortByOrder ps)

/-- `list_parties`: the party rows of the contract, ordered by
`signing_order` ascending. -/
def list_parties (s : DBState) (contract_id : String) : List Party :=
  sortByOrder (s.parties.filter (fun p => p.contract_id == contract_id))

/-- `add_party`: inserts a party row with `signature_status="PENDING"`; the
database-generated id is the `new_id` parameter. -/
def add_party (s : DBState) (new_id contract_id role name email : String)
    (signing_order : Nat) : DBState :=
  { s with parties := s.parties ++
      [{ id := new_id, contract_id := contract_id, role := role, name := name,
         email := email, signature_status := "PENDING",
         signing_order := signing_order }] }

/-- The rows matched by the repository `remove_party` DELETE
(`WHERE contract_id = :contract_id AND id = :party_id`). -/
def matchingParties (s : DBState) (contract_id party_id : String) : List Party :=
  s.parties.filter (fun p => p.contract_id == contract_id && p.id == party_id)

/-- Repository `remove_party`: deletes the matched rows and returns the
deleted-row count together with the new state. -/
def repo_remove_party (s : DBState) (contract_id party_id : String) :
    Nat × DBState :=
  ((matchingParties s contract_id party_id).length,
   { s with parties :=
       s.parties.filter (fun p => !(p.contract_id == contract_id && p.id == party_id)) })

/-- `coalesce(max(version), 0)` over one contract's versions. -/
def maxVersion (s : DBState) (contract_id : String) : Nat :=
  (filteredVersions s contract_id).foldl (fun m v => max m v.version) 0

/-- `get_next_version_number`: `coalesce(max(version), 0) + 1`. -/
def get_next_version_number (s : DBState) (contract_id : String) : Nat :=
  maxVersion s contract_id + 1

/-- `log_activity`: appends an activity-log row. -/
def log_activity (s : DBState) (contract_id action user_id user_name : String)
    (details : List (String × JsonValue)) : DBState :=
  { s with logs := s.logs ++
      [{ contract_id := contract_id, action := action, user_id := user_id,
         user_name := user_name, details := details }] }

/-- `list_contracts_by_ids`: the non-deleted contracts of the owner whose id
is among the requested ids. -/
def list_contracts_by_ids (s : DBState) (owner_user_id : String)
    (contract_ids : List String) : List Contract :=
  s.contracts.filter (fun c =>
    c.owner_user_id == owner_user_id && c.deleted_at.isNone
      && contract_ids.contains c.id)

/-- `all_parties_signed`: no party row of the contract has
`signature_status != 'SIGNED'`. -/
def all_parties_signed (s : DBState) (contract_id : String) : Bool :=
  (s.parties.filter (fun p =>
      p.contract_id == contract_id && !(p.signature_status == "SIGNED"))).length == 0

/-! ## Service layer (`services/contracts_service.py`) -/

/-- `ContractStatus` from `schemas/contracts.py` (the validated request
enum); `value` is the backing string. -/
inductive ContractStatus where
  | DRAFT | GENERATED | SIGNING | SIGNED | CANCELLED | EXPIRED
deriving DecidableEq, Repr

def ContractStatus.value : ContractStatus → String
  | .DRAFT => "DRAFT"
  | .GENERATED => "GENERATED"
  | .SIGNING => "SIGNING"
  | .SIGNED => "SIGNED"
  | .CANCELLED => "CANCELLED"
  | .EXPIRED => "EXPIRED"

/-- `ALLOWED_TRANSITIONS.get(current, [])`: the allowed-edge table of the
service, with the dictionary-lookup default `[]`. -/
def ALLOWED_TRANSITIONS (status : String) : List String :=
  if status == "DRAFT" then ["GENERATED", "CANCELLED", "EXPIRED"]
  else if status == "GENERATED" then ["SIGNING", "CANCELLED", "EXPIRED"]
  else if status == "SIGNING" then ["SIGNED", "CANCELLED", "EXPIRED"]
  else []

/-- `STATUS_ACTION.get(new_status, ActivityAction.UPDATED)`: target status to
audit action, with the dictionary-lookup default `UPDATED`. -/
def STATUS_ACTION (status : String) : String :=
  if status == "GENERATED" then "GENERATED"
  else if status == "SIGNING" then "SENT"
  else if status == "SIGNED" then "SIGNED"
  else if status == "CANCELLED" then "CANCELLED"
  else "UPDATED"

/-- Python truthiness test `not payload.reason` on an optional string:
true for `None` and for the empty string. -/
def reasonMissing : Option String → Bool
  | none => true
  | some r => r.isEmpty

/-- `"reason": payload.reason` as a JSON detail value (`None` serialises to
null). -/
def reasonJson : Option String → JsonValue
  | none => .null
  | some r => .str r

/-- `UpdateContractStatusRequest` from `schemas/contracts.py`. -/
structure UpdateContractStatusRequest where
  status : ContractStatus
  reason : Option String := none
deriving DecidableEq, Repr

/-- `UpdateContractRequest` from `schemas/contracts.py` (title only). -/
structure UpdateContractRequest where
  title : Option String := none
deriving DecidableEq, Repr

/-- `update_status` from `services/contracts_service.py`: ownership check,
the three `InvalidTransition` checks in order, the two SIGNED preconditions,
then the field update and the audit entry.  A raised `ServiceError` aborts
the transaction, so the error branches return no modified state. -/
def update_status (s : DBState) (user : UserContext) (contract_id : String)
    (payload : UpdateContractStatusRequest) (now : Nat) :
    Except ServiceError DBState :=
  match get_contract s contract_id with
  | none => .error ⟨404, "Contrato no encontrado."⟩
  | some contract =>
    if contract.owner_user_id != user.user_id then
      .error ⟨403, "No tienes acceso a este contrato."⟩
    else
      let current_status := contract.status
      let new_status := payload.status.value
      if new_status == current_status then
        .error ⟨400, "El contrato ya tiene ese estado."⟩
      else if !((ALLOWED_TRANSITIONS current_status).contains new_status) then
        .error ⟨400, "Transición de estado no permitida."⟩
      else if new_status == "CANCELLED" && reasonMissing payload.reason then
        .error ⟨400, "El estado CANCELLED requiere reason."⟩
      else if new_status == "SIGNED" && (list_parties s contract_id).isEmpty then
        .error ⟨409, "No hay partes firmantes registradas."⟩
      else if new_status == "SIGNED" && !(all_parties_signed s contract_id) then
        .error ⟨409, "Todas las partes deben estar SIGNED."⟩
      else
        let s1 := update_contract_fields s contract_id
          { status := some new_status,
            set_signed_at := some (if new_status == "SIGNED" then some now else none) }
        .ok (log_activity s1 contract_id (STATUS_ACTION new_status)
          user.user_id user.user_name
          [("previousStatus", .str current_status),
           ("newStatus", .str new_status),
           ("reason", reasonJson payload.reason)])

/-- `update_contract` from `services/contracts_service.py`: ownership check,
then the title update (skipped, with no audit entry, when the payload carries
no title). -/
def update_contract (s : DBState) (user : UserContext) (contract_id : String)
    (payload : UpdateContractRequest) : Except ServiceError DBState :=
  match get_contract s contract_id with
  | none => .error ⟨404, "Contrato no encontrado."⟩
  | some contract =>
    if contract.owner_user_id != user.user_id then
      .error ⟨403, "No tienes acceso a este contrato."⟩
    else
      match payload.title with
      | none => .ok (update_contract_fields s contract_id {})
      | some t =>
        let s1 := update_contract_fields s contract_id { title := some t }
        .ok (log_activity s1 contract_id "UPDATED" user.user_id user.user_name
          [("changedFields", .obj [("title", t)])])

/-- `update_content` from `services/contracts_service.py`: ownership check,
next version number, version insert, then the audit entry (`GENERATED` for
source `"AI"`, else `UPDATED`). -/
def update_content (s : DBState) (user : UserContext) (contract_id : String)
    (content source : String) : Except ServiceError DBState :=
  match get_contract s contract_id with
  | none => .error ⟨404, "Contrato no encontrado."⟩
  | some contract =>
    if contract.owner_user_id != user.user_id then
      .error ⟨403, "No tienes acceso a este contrato."⟩
    else
      let next_version := get_next_version_number s contract_id
      let s1 := add_version s contract_id next_version content source user.user_id
      .ok (log_activity s1 contract_id
        (if source == "AI" then "GENERATED" else "UPDATED")
        user.user_id user.user_name
        [("version", .num next_version), ("source", .str source)])

/-- A sequence of one-at-a-time `update_content` calls, each `(content,
source)`, stopping at the first error. -/
def runUpdates (user : UserContext) (contract_id : String) :
    DBState → List (String × String) → Except ServiceError DBState
  | s, [] => .ok s
  | s, (content, source) :: rest =>
    match update_content s user contract_id content source with
    | .error e => .error e
    | .ok s1 => runUpdates user contract_id s1 rest

/-- `remove_party` from `services/contracts_service.py`: ownership check,
SIGNED-contract conflict, repository delete, not-found on zero deleted rows,
then the audit entry. -/
def remove_party (s : DBState) (user : UserContext)
    (contract_id party_id : String) : Except ServiceError DBState :=
  match get_contract s contract_id with
  | none => .error ⟨404, "Contrato no encontrado."⟩
  | some contract =>
    if contract.owner_user_id != user.user_id then
      .error ⟨403, "No tienes acceso a este contrato."⟩
    else if contract.status == "SIGNED" then
      .error ⟨409, "No se puede remover una parte de un contrato firmado."⟩
    else
      match repo_remove_party s contract_id party_id with
      | (deleted, s1) =>
        if deleted == 0 then .error ⟨404, "Parte no encontrada."⟩
        else
          .ok (log_activity s1 contract_id "UPDATED" user.user_id user.user_name
            [("partyRemoved", .str party_id)])

/-- The party-copying loop of `duplicate_contract`
(`for party in parties: add_party(...)`); the database-generated party ids
are `pid_gen k` for the k-th copied party. -/
def copyParties (new_contract_id : String) (pid_gen : Nat → String) :
    Nat → List Party → DBState → DBState
  | _, [], s => s
  | k, p :: ps, s =>
      copyParties new_contract_id pid_gen (k + 1) ps
        (add_party s (pid_gen k) new_contract_id p.role p.name p.email
          p.signing_order)

/-- `duplicate_contract` from `services/contracts_service.py`: ownership
check, new contract in DRAFT with copied title/type/template/metadata
(`contract.metadata or {}` is the metadata itself for association lists), a
copy of the latest version as version 1 when one exists, copied parties, and
the CREATED audit entry.  `new_id` and `pid_gen` stand for the
database-generated ids. -/
def duplicate_contract (s : DBState) (user : UserContext)
    (contract_id new_id : String) (pid_gen : Nat → String) :
    Except ServiceError DBState :=
  match get_contract s contract_id with
  | none => .error ⟨404, "Contrato no encontrado."⟩
  | some contract =>
    if contract.owner_user_id != user.user_id then
      .error ⟨403, "No tienes acceso a este contrato."⟩
    else
      let s1 := create_contract s new_id contract.title contract.contract_type
        contract.template_id user.user_id contract.metadata
      let s2 := match get_latest_version s1 contract_id with
        | some latest_version =>
            add_version s1 new_id 1 latest_version.content "USER" user.user_id
        | none => s1
      let s3 := copyParties new_id pid_gen 0 (list_parties s2 contract_id) s2
      .ok (log_activity s3 new_id "CREATED" user.user_id user.user_name
        [("duplicatedFrom", .str contract_id)])

/-- One archive entry of the bulk download: file name and plain-text
content. -/
def archiveEntry (s : DBState) (c : Contract) : String × String :=
  ("contract_" ++ c.id ++ ".html", currentContent s c.id)

/-- `bulk_download` from `services/contracts_service.py`: resolves the
requested ids for the owner, compares the resolved count with the size of the
de-duplicated requested-id set, and on success returns the archive entries
(`contract_{id}.html` with the contract's current content).  The archive is
modelled as its entry list; ZIP packaging is a pure function of the
entries. -/
def bulk_download (s : DBState) (user : UserContext)
    (contract_ids : List String) :
    Except ServiceError (List (String × String)) :=
  let contracts := list_contracts_by_ids s user.user_id contract_ids
  if contracts.length != contract_ids.dedup.length then
    .error ⟨404, "Uno o más contratos no fueron encontrados."⟩
  else
    .ok (contracts.map (archiveEntry s))

/-- The response of the public view: id, title, current content and the
selected party (`documentUrl` is constantly `None` and omitted). -/
structure PublicContractView where
  id : String
  title : String
  content : String
  party : Party
deriving DecidableEq, Repr

/-- `public_view` from `services/contracts_service.py`: loads the contract
with no ownership check, requires a non-empty party list, and selects the
first party whose `signature_status != 'SIGNED'`, falling back to the first
party.  The `token` argument is received but never read. -/
def public_view (s : DBState) (contract_id : String) (token : String) :
    Except ServiceError PublicContractView :=
  match get_contract s contract_id with
  | none => .error ⟨404, "Contrato no encontrado."⟩
  | some contract =>
    let latest_version := get_latest_version s contract_id
    match list_parties s contract_id with
    | [] => .error ⟨404, "No hay partes registradas para este contrato."⟩
    | p0 :: rest =>
      let selected :=
        ((p0 :: rest).find? (fun p => !(p.signature_status == "SIGNED"))).getD p0
      .ok { id := contract.id, title := contract.title,
            content := match latest_version with
              | some v => v.content
              | none => "",
            party := selected }

/-! ## Supporting lemmas -/

/-- A contract with no version rows has empty current content. -/
theorem currentContent_of_no_versions (s : DBState) (contract_id : String)
    (h : filteredVersions s contract_id = []) :
    currentContent s contract_id = "" := by
  simp [currentContent, get_latest_version, h]

/-! ## Claim theorems -/

/-- Claim C10: the outcome of `public_view` does not depend on the supplied
token — for every state, contract id and token pair, the two results (success
value or error) coincide, because the service never reads the token. -/
theorem c10_public_view_token_irrelevant (s : DBState)
    (contract_id t1 t2 : String) :
    public_view s contract_id t1 = public_view s contract_id t2 := rfl

/-- State with an existing version numbered 5 for contract `c1`, used to
show that `add_version` performs no ordering check. -/
def c5xState : DBState :=
  { contracts := [], versions := [⟨"c1", 5, "v5", "USER", "u1"⟩],
    parties := [], logs := [] }

/-- Claim C5 counterexample: contract `c1` already has a version numbered 5,
and `add_version` with the non-increasing number 3 does not fail with
`Conflict` — it inserts the row.  The repository function has no defensive
check at all. -/
theorem c5_counterexample :
    3 ≤ maxVersion c5xState "c1" ∧
    (add_version c5xState "c1" 3 "old" "USER" "u1").versions =
      [⟨"c1", 5, "v5", "USER", "u1"⟩, ⟨"c1", 3, "old", "USER", "u1"⟩] := by
  exact ⟨by decide, rfl⟩

/-- Claim C5 (amended): `add_version` unconditionally inserts the version
row, whatever its number — it never fails and touches no other table. -/
theorem c5_amended_add_version_unconditional (s : DBState)
    (contract_id : String) (version : Nat) (content source created_by : String) :
    (add_version s contract_id version content source created_by).versions =
      s.versions ++ [⟨contract_id, version, content, source, created_by⟩] ∧
    (add_version s contract_id version content source created_by).contracts =
      s.contracts ∧
    (add_version s contract_id version content source created_by).parties =
      s.parties ∧
    (add_version s contract_id version content source created_by).logs =
      s.logs :=
  ⟨rfl, rfl, rfl, rfl⟩

/-- Claim C8: `bulk_download` fails with `NotFound` exactly when the number
of contracts resolved for the owner differs from the size of the
de-duplicated requested-id set; on success the archive holds one entry per
resolved contract named `contract_{id}.html` with that contract's current
content, which is the empty string for contracts with no version. -/
theorem c8_bulk_download_resolution (s : DBState) (user : UserContext)
    (contract_ids : List String) :
    ((∃ e, bulk_download s user contract_ids = Except.error e) ↔
        (list_contracts_by_ids s user.user_id contract_ids).length ≠
          contract_ids.dedup.length)
    ∧ ((list_contracts_by_ids s user.user_id contract_ids).length ≠
          contract_ids.dedup.length →
        bulk_download s user contract_ids =
          Except.error ⟨404, "Uno o más contratos no fueron encontrados."⟩)
    ∧ ((list_contracts_by_ids s user.user_id contract_ids).length =
          contract_ids.dedup.length →
        bulk_download s user contract_ids =
          Except.ok ((list_contracts_by_ids s user.user_id contract_ids).map
            (archiveEntry s)))
    ∧ (∀ c : Contract, archiveEntry s c =
          ("contract_" ++ c.id ++ ".html", currentContent s c.id))
    ∧ (∀ c : Contract, filteredVersions s c.id = [] →
        archiveEntry s c = ("contract_" ++ c.id ++ ".html", "")) := by
  refine ⟨?_, ?_, ?_, fun c => rfl, ?_⟩
  · unfold bulk_download
    by_cases h : (list_contracts_by_ids s user.user_id contract_ids).length =
        contract_ids.dedup.length <;> simp [h]
  · intro h
    unfold bulk_download
    simp [h]
  · intro h
    unfold bulk_download
    simp [h]
  · intro c h
    simp [archiveEntry, currentContent_of_no_versions s c.id h]

def c8wContract : Contract :=
  { id := "c1", title := "T", contract_type := "NDA", template_id := "tpl",
    owner_user_id := "u1", status := "DRAFT", metadata := [],
    signed_at := none, deleted_at := none }

def c8wState : DBState :=
  { contracts := [c8wContract], versions := [⟨"c1", 1, "hello", "USER", "u1"⟩],
    parties := [], logs := [] }

def c8wUser : UserContext := ⟨"u1", "u1@example.com"⟩

/-- Claim C8 witness: concrete owner, one resolved contract, one requested
id; the resolution succeeds and produces the single expected archive
entry. -/
theorem c8_bulk_download_resolution_witness :
    (list_contracts_by_ids c8wState c8wUser.user_id ["c1"]).length =
      (["c1"] : List String).dedup.length ∧
    bulk_download c8wState c8wUser ["c1"] =
      Except.ok [("contract_c1.html", "hello")] := by
  refine ⟨by decide, ?_⟩
  have h := (c8_bulk_download_resolution c8wState c8wUser ["c1"]).2.2.1 (by decide)
  rw [h]; rfl

def c1xContract : Contract :=
  { id := "c1", title := "T", contract_type := "NDA", template_id := "tpl",
    owner_user_id := "u1", status := "DRAFT", metadata := [],
    signed_at := none, deleted_at := none }

def c1xState : DBState :=
  { contracts := [c1xContract], versions := [],
    parties := [{ id := "p1", contract_id := "c1", role := "HOST", name := "A",
                  email := "a@example.com", signature_status := "SIGNED",
                  signing_order := 1 }],
    logs := [] }

def c1xUser : UserContext := ⟨"u1", "u1@example.com"⟩

/-- Claim C1 counterexample: a DRAFT contract owned by the requester with one
party whose signature_status is SIGNED.  The claim predicts that
`updateStatus(c, SIGNED)` succeeds (the party list is non-empty and every
party is signed), but the service fails with `InvalidTransition` (400),
because DRAFT has no edge to SIGNED.  The claim holds only for contracts in
SIGNING status. -/
theorem c1_counterexample :
    get_contract c1xState "c1" = some c1xContract ∧
    c1xContract.owner_user_id = c1xUser.user_id ∧
    list_parties c1xState "c1" ≠ [] ∧
    all_parties_signed c1xState "c1" = true ∧
    update_status c1xState c1xUser "c1" ⟨.SIGNED, none⟩ 0 =
      Except.error ⟨400, "Transición de estado no permitida."⟩ := by
  exact ⟨rfl, rfl, by decide, by decide, rfl⟩

/-- Claim C1 (amended): for a contract in SIGNING status owned by the
requester, `update_status` to SIGNED succeeds exactly when the contract has
at least one party and every party is SIGNED; with an empty party list it
fails with `PreconditionFailed` (409, missing parties), and with an unsigned
party it fails with `PreconditionFailed` (409, unsigned parties).  Failures
raise before any write, so the pre-call state — in particular the contract's
status — is unchanged. -/
theorem c1_amended_signed_requires_all_signed (s : DBState) (u : UserContext)
    (cid : String) (c : Contract) (r : Option String) (now : Nat)
    (hc : get_contract s cid = some c)
    (hown : c.owner_user_id = u.user_id)
    (hst : c.status = "SIGNING") :
    ((∃ s', update_status s u cid ⟨.SIGNED, r⟩ now = Except.ok s') ↔
        (list_parties s cid ≠ [] ∧ all_parties_signed s cid = true))
    ∧ (list_parties s cid = [] →
        update_status s u cid ⟨.SIGNED, r⟩ now =
          Except.error ⟨409, "No hay partes firmantes registradas."⟩)
    ∧ (list_parties s cid ≠ [] → all_parties_signed s cid = false →
        update_status s u cid ⟨.SIGNED, r⟩ now =
          Except.error ⟨409, "Todas las partes deben estar SIGNED."⟩) := by
  have hempty : list_parties s cid = [] →
      update_status s u cid ⟨.SIGNED, r⟩ now =
        Except.error ⟨409, "No hay partes firmantes registradas."⟩ := by
    intro hp
    unfold update_status
    rw [hc]
    simp [hown, hst, ContractStatus.value, ALLOWED_TRANSITIONS, hp]
  have hunsigned : list_parties s cid ≠ [] → all_parties_signed s cid = false →
      update_status s u cid ⟨.SIGNED, r⟩ now =
        Except.error ⟨409, "Todas las partes deben estar SIGNED."⟩ := by
    intro hp hsig
    unfold update_status
    rw [hc]
    simp [hown, hst, ContractStatus.value, ALLOWED_TRANSITIONS, hp, hsig]
  refine ⟨⟨?_, ?_⟩, hempty, hunsigned⟩
  · rintro ⟨s', hs'⟩
    by_cases hp : list_parties s cid = []
    · rw [hempty hp] at hs'; cases hs'
    · refine ⟨hp, ?_⟩
      by_cases hsig : all_parties_signed s cid = true
      · exact hsig
      · rw [hunsigned hp (Bool.eq_false_iff.mpr hsig)] at hs'; cases hs'
  · rintro ⟨hp, hsig⟩
    unfold update_status
    rw [hc]
    simp [hown, hst, ContractStatus.value, ALLOWED_TRANSITIONS, hp, hsig]

def c1wState : DBState :=
  { contracts := [{ id := "c1", title := "T", contract_type := "NDA",
                    template_id := "tpl", owner_user_id := "u1",
                    status := "SIGNING", metadata := [], signed_at := none,
                    deleted_at := none }],
    versions := [],
    parties := [{ id := "p1", contract_id := "c1", role := "HOST", name := "A",
                  email := "a@example.com", signature_status := "SIGNED",
                  signing_order := 1 }],
    logs := [] }

/-- Claim C1 witness: a SIGNING contract with one SIGNED party; the amended
theorem applies and produces a successful transition. -/
theorem c1_amended_signed_requires_all_signed_witness :
    get_contract c1wState "c1" = some ⟨"c1", "T", "NDA", "tpl", "u1", "SIGNING",
      [], none, none⟩ ∧
    (∃ s', update_status c1wState c1xUser "c1" ⟨.SIGNED, none⟩ 7 = Except.ok s') := by
  refine ⟨rfl, ?_⟩
  exact (c1_amended_signed_requires_all_signed c1wState c1xUser "c1"
    ⟨"c1", "T", "NDA", "tpl", "u1", "SIGNING", [], none, none⟩ none 7
    rfl rfl rfl).1.mpr ⟨by decide, by decide⟩

/-- Claim C2: for a contract owned by the requester, `update_status` fails
with `InvalidTransition` (400) exactly when the target equals the current
status, or the target is not in the allowed-edge set of the current status
(per `ALLOWED_TRANSITIONS`, empty for SIGNED/CANCELLED/EXPIRED), or the
target is CANCELLED with an empty or absent reason; the three checks apply
in that order (shown by the distinct error messages) and raise before any
write, leaving the state unmodified. -/
theorem c2_invalid_transition_checks (s : DBState) (u : UserContext)
    (cid : String) (c : Contract) (payload : UpdateContractStatusRequest)
    (now : Nat)
    (hc : get_contract s cid = some c)
    (hown : c.owner_user_id = u.user_id) :
    ((∃ e, update_status s u cid payload now = Except.error e ∧
        e.statusCode = 400) ↔
      (payload.status.value = c.status ∨
        payload.status.value ∉ ALLOWED_TRANSITIONS c.status ∨
        (payload.status.value = "CANCELLED" ∧
          reasonMissing payload.reason = true)))
    ∧ (payload.status.value = c.status →
        update_status s u cid payload now =
          Except.error ⟨400, "El contrato ya tiene ese estado."⟩)
    ∧ (payload.status.value ≠ c.status →
        payload.status.value ∉ ALLOWED_TRANSITIONS c.status →
        update_status s u cid payload now =
          Except.error ⟨400, "Transición de estado no permitida."⟩)
    ∧ (payload.status.value ≠ c.status →
        payload.status.value ∈ ALLOWED_TRANSITIONS c.status →
        payload.status.value = "CANCELLED" →
        reasonMissing payload.reason = true →
        update_status s u cid payload now =
          Except.error ⟨400, "El estado CANCELLED requiere reason."⟩) := by
  have h1 : payload.status.value = c.status →
      update_status s u cid payload now =
        Except.error ⟨400, "El contrato ya tiene ese estado."⟩ := by
    intro hA
    unfold update_status
    rw [hc]
    simp [hown, hA]
  have h2 : payload.status.value ≠ c.status →
      payload.status.value ∉ ALLOWED_TRANSITIONS c.status →
      update_status s u cid payload now =
        Except.error ⟨400, "Transición de estado no permitida."⟩ := by
    intro hA hB
    unfold update_status
    rw [hc]
    simp [hown, hA, List.contains, hB]
  have h3 : payload.status.value ≠ c.status →
      payload.status.value ∈ ALLOWED_TRANSITIONS c.status →
      payload.status.value = "CANCELLED" →
      reasonMissing payload.reason = true →
      update_status s u cid payload now =
        Except.error ⟨400, "El estado CANCELLED requiere reason."⟩ := by
    intro hA hB hcan hmiss
    have hA' := hcan ▸ hA
    have hB' := hcan ▸ hB
    unfold update_status
    rw [hc]
    simp [hown, hcan, hA', List.contains, hB', hmiss]
  have h5 : payload.status.value ≠ c.status →
      payload.status.value ∈ ALLOWED_TRANSITIONS c.status →
      (payload.status.value = "CANCELLED" →
        reasonMissing payload.reason = false) →
      payload.status.value ≠ "SIGNED" →
      ∃ s', update_status s u cid payload now = Except.ok s' := by
    intro hA hB hnc hns
    unfold update_status
    rw [hc]
    by_cases hcan : payload.status.value = "CANCELLED"
    · have hA' := hcan ▸ hA
      have hB' := hcan ▸ hB
      simp [hown, hcan, hA', List.contains, hB', hnc hcan]
    · simp [hown, hA, List.contains, hB, hcan, hns]
  have h6 : payload.status.value ≠ c.status →
      payload.status.value ∈ ALLOWED_TRANSITIONS c.status →
      payload.status.value = "SIGNED" →
      update_status s u cid payload now =
          Except.error ⟨409, "No hay partes firmantes registradas."⟩ ∨
        update_status s u cid payload now =
          Except.error ⟨409, "Todas las partes deben estar SIGNED."⟩ ∨
        ∃ s', update_status s u cid payload now = Except.ok s' := by
    intro hA hB hsi
    have hA' := hsi ▸ hA
    have hB' := hsi ▸ hB
    unfold update_status
    rw [hc]
    by_cases hp : (list_parties s cid).isEmpty <;>
      by_cases hsg : all_parties_signed s cid <;>
      simp [hown, hsi, hA', List.contains, hB', hp, hsg]
  refine ⟨⟨?_, ?_⟩, h1, h2, h3⟩
  · rintro ⟨e, he, hcode⟩
    by_cases hA : payload.status.value = c.status
    · exact Or.inl hA
    by_cases hB : payload.status.value ∈ ALLOWED_TRANSITIONS c.status
    · by_cases hcan : payload.status.value = "CANCELLED"
      · by_cases hmiss : reasonMissing payload.reason = true
        · exact Or.inr (Or.inr ⟨hcan, hmiss⟩)
        · exfalso
          have hns : payload.status.value ≠ "SIGNED" := by
            rw [hcan]; decide
          obtain ⟨s', hs'⟩ :=
            h5 hA hB (fun _ => Bool.eq_false_iff.mpr hmiss) hns
          rw [hs'] at he
          cases he
      · by_cases hsi : payload.status.value = "SIGNED"
        · exfalso
          rcases h6 hA hB hsi with h | h | ⟨s', hs'⟩
          · rw [h] at he
            cases he
            simp at hcode
          · rw [h] at he
            cases he
            simp at hcode
          · rw [hs'] at he
            cases he
        · exfalso
          obtain ⟨s', hs'⟩ := h5 hA hB (fun hx => absurd hx hcan) hsi
          rw [hs'] at he
          cases he
    · exact Or.inr (Or.inl hB)
  · rintro (hA | hB | ⟨hcan, hmiss⟩)
    · exact ⟨_, h1 hA, rfl⟩
    · by_cases hA : payload.status.value = c.status
      · exact ⟨_, h1 hA, rfl⟩
      · exact ⟨_, h2 hA hB, rfl⟩
    · by_cases hA : payload.status.value = c.status
      · exact ⟨_, h1 hA, rfl⟩
      by_cases hB : payload.status.value ∈ ALLOWED_TRANSITIONS c.status
      · exact ⟨_, h3 hA hB hcan hmiss, rfl⟩
      · exact ⟨_, h2 hA hB, rfl⟩

/-- Claim C2 witness: on the SIGNING contract of `c1wState`, a self
transition to SIGNING is rejected with 400, and a CANCELLED request without
reason is also rejected with 400. -/
theorem c2_invalid_transition_checks_witness :
    (ContractStatus.SIGNING.value : String) =
      ("SIGNING" : String) ∧
    update_status c1wState c1xUser "c1" ⟨.SIGNING, none⟩ 0 =
      Except.error ⟨400, "El contrato ya tiene ese estado."⟩ ∧
    update_status c1wState c1xUser "c1" ⟨.CANCELLED, none⟩ 0 =
      Except.error ⟨400, "El estado CANCELLED requiere reason."⟩ := by
  refine ⟨rfl, ?_, ?_⟩
  · exact (c2_invalid_transition_checks c1wState c1xUser "c1"
      ⟨"c1", "T", "NDA", "tpl", "u1", "SIGNING", [], none, none⟩
      ⟨.SIGNING, none⟩ 0 rfl rfl).2.1 rfl
  · exact (c2_invalid_transition_checks c1wState c1xUser "c1"
      ⟨"c1", "T", "NDA", "tpl", "u1", "SIGNING", [], none, none⟩
      ⟨.CANCELLED, none⟩ 0 rfl rfl).2.2.2 (by decide) (by decide) rfl rfl

/-- Claim C3: every successful `update_status` sets the contract's status to
the target, sets `signed_at` to the current time exactly when the target is
SIGNED and to null otherwise, leaves versions and parties untouched, and
appends exactly one audit entry whose action follows the fixed
`STATUS_ACTION` mapping (GENERATED→GENERATED, SIGNING→SENT, SIGNED→SIGNED,
CANCELLED→CANCELLED, EXPIRED→UPDATED, DRAFT→UPDATED) and whose details hold
the previous status, the new status, and the supplied reason. -/
theorem c3_success_effects (s : DBState) (u : UserContext) (cid : String)
    (payload : UpdateContractStatusRequest) (now : Nat) (s' : DBState)
    (h : update_status s u cid payload now = Except.ok s') :
    (STATUS_ACTION "GENERATED" = "GENERATED" ∧
      STATUS_ACTION "SIGNING" = "SENT" ∧
      STATUS_ACTION "SIGNED" = "SIGNED" ∧
      STATUS_ACTION "CANCELLED" = "CANCELLED" ∧
      STATUS_ACTION "EXPIRED" = "UPDATED" ∧
      STATUS_ACTION "DRAFT" = "UPDATED") ∧
    ∃ c, get_contract s cid = some c ∧
      s'.contracts = s.contracts.map (fun d =>
        if d.id == cid then
          { d with status := payload.status.value,
                   signed_at :=
                     if payload.status.value == "SIGNED" then some now
                     else none }
        else d) ∧
      s'.versions = s.versions ∧
      s'.parties = s.parties ∧
      s'.logs = s.logs ++
        [{ contract_id := cid, action := STATUS_ACTION payload.status.value,
           user_id := u.user_id, user_name := u.user_name,
           details := [("previousStatus", JsonValue.str c.status),
                       ("newStatus", JsonValue.str payload.status.value),
                       ("reason", reasonJson payload.reason)] }] := by
  refine ⟨⟨rfl, rfl, rfl, rfl, rfl, rfl⟩, ?_⟩
  unfold update_status at h
  cases hc : get_contract s cid with
  | none =>
    rw [hc] at h
    cases h
  | some c =>
    rw [hc] at h
    dsimp only at h
    split at h
    · cases h
    split at h
    · cases h
    split at h
    · cases h
    split at h
    · cases h
    split at h
    · cases h
    split at h
    · cases h
    injection h with h
    subst h
    refine ⟨c, rfl, ?_, rfl, rfl, rfl⟩
    simp [log_activity, update_contract_fields, applyFields]

def c3wFinal : DBState :=
  (update_status c1wState c1xUser "c1" ⟨.SIGNED, none⟩ 7).toOption.getD c1wState

/-- Claim C3 witness: the SIGNING contract of `c1wState` with its one SIGNED
party transitions to SIGNED; the hypothesis of the success-effects theorem is
satisfied and one audit entry is appended. -/
theorem c3_success_effects_witness :
    update_status c1wState c1xUser "c1" ⟨.SIGNED, none⟩ 7 =
      Except.ok c3wFinal ∧
    c3wFinal.logs.length = c1wState.logs.length + 1 := by
  have h := c3_success_effects c1wState c1xUser "c1" ⟨.SIGNED, none⟩ 7
    c3wFinal rfl
  obtain ⟨-, c, -, -, -, -, hlogs⟩ := h
  exact ⟨rfl, by rw [hlogs]; simp⟩

/-- Claim C9: for a contract owned by the requester, `update_contract` with
no supplied field is a no-op — the state (hence every field and the audit
log) is returned unchanged — while a supplied title updates exactly the
matching contract's title and appends exactly one UPDATED audit entry whose
details carry the changed-field set `{"changedFields": {"title": t}}`. -/
theorem c9_update_fields_noop_or_title (s : DBState) (u : UserContext)
    (cid : String) (c : Contract) (payload : UpdateContractRequest)
    (hc : get_contract s cid = some c)
    (hown : c.owner_user_id = u.user_id) :
    (payload.title = none → update_contract s u cid payload = Except.ok s)
    ∧ (∀ t, payload.title = some t →
        update_contract s u cid payload = Except.ok
          { s with
            contracts := s.contracts.map (fun d =>
              if d.id == cid then { d with title := t } else d),
            logs := s.logs ++
              [{ contract_id := cid, action := "UPDATED",
                 user_id := u.user_id, user_name := u.user_name,
                 details := [("changedFields",
                   JsonValue.obj [("title", t)])] }] }) := by
  constructor
  · intro hn
    unfold update_contract
    rw [hc]
    simp [hown, hn, update_contract_fields]
  · intro t ht
    unfold update_contract
    rw [hc]
    simp [hown, ht, update_contract_fields, applyFields, log_activity]

/-- Claim C9 witness: on the SIGNING contract of `c1wState`, a payload with
no title leaves the state untouched, and a payload with title `"NEW"`
succeeds. -/
theorem c9_update_fields_noop_or_title_witness :
    update_contract c1wState c1xUser "c1" ⟨none⟩ = Except.ok c1wState ∧
    ∃ s', update_contract c1wState c1xUser "c1" ⟨some "NEW"⟩ =
      Except.ok s' := by
  constructor
  · exact (c9_update_fields_noop_or_title c1wState c1xUser "c1"
      ⟨"c1", "T", "NDA", "tpl", "u1", "SIGNING", [], none, none⟩ ⟨none⟩
      rfl rfl).1 rfl
  · exact ⟨_, (c9_update_fields_noop_or_title c1wState c1xUser "c1"
      ⟨"c1", "T", "NDA", "tpl", "u1", "SIGNING", [], none, none⟩ ⟨some "NEW"⟩
      rfl rfl).2 "NEW" rfl⟩

/-- Claim C7: for a contract owned by the requester, `remove_party` fails
with `Conflict` (409) when the contract is SIGNED — the failure raises
before the repository delete and the audit write, so no row is deleted and
no audit entry is written (the pre-call state stands).  When the contract is
not SIGNED, it fails with `NotFound` (404) exactly when the repository
delete matches no row, and otherwise removes exactly the rows matching
(contract id, party id) — a single party, the id being the primary key —
and appends one UPDATED audit entry. -/
theorem c7_remove_party_cases (s : DBState) (u : UserContext)
    (cid pid : String) (c : Contract)
    (hc : get_contract s cid = some c)
    (hown : c.owner_user_id = u.user_id) :
    (c.status = "SIGNED" →
      remove_party s u cid pid =
        Except.error
          ⟨409, "No se puede remover una parte de un contrato firmado."⟩)
    ∧ (c.status ≠ "SIGNED" → matchingParties s cid pid = [] →
      remove_party s u cid pid = Except.error ⟨404, "Parte no encontrada."⟩)
    ∧ (c.status ≠ "SIGNED" → matchingParties s cid pid ≠ [] →
      remove_party s u cid pid = Except.ok
        { s with
          parties := s.parties.filter
            (fun p => !(p.contract_id == cid && p.id == pid)),
          logs := s.logs ++
            [{ contract_id := cid, action := "UPDATED", user_id := u.user_id,
               user_name := u.user_name,
               details := [("partyRemoved", JsonValue.str pid)] }] }) := by
  refine ⟨?_, ?_, ?_⟩
  · intro hsgn
    unfold remove_party
    rw [hc]
    simp [hown, hsgn]
  · intro hns hmp
    unfold remove_party
    rw [hc]
    simp [hown, hns, repo_remove_party, hmp]
  · intro hns hmp
    unfold remove_party
    rw [hc]
    obtain ⟨p, ps, hmp⟩ := List.exists_cons_of_ne_nil hmp
    simp [hown, hns, repo_remove_party, hmp, log_activity]

def c7wContract : Contract :=
  { id := "c1", title := "T", contract_type := "NDA", template_id := "tpl",
    owner_user_id := "u1", status := "SIGNING", metadata := [],
    signed_at := none, deleted_at := none }

def c7wState : DBState :=
  { contracts := [c7wContract], versions := [],
    parties := [{ id := "p1", contract_id := "c1", role := "HOST", name := "A",
                  email := "a@example.com", signature_status := "PENDING",
                  signing_order := 1 }],
    logs := [] }

/-- Claim C7 witness: a SIGNING contract with one party; removing that party
succeeds, and removing an unknown party id fails with 404. -/
theorem c7_remove_party_cases_witness :
    c7wContract.status ≠ "SIGNED" ∧
    matchingParties c7wState "c1" "p1" ≠ [] ∧
    (∃ s', remove_party c7wState c1xUser "c1" "p1" = Except.ok s') ∧
    remove_party c7wState c1xUser "c1" "zz" =
      Except.error ⟨404, "Parte no encontrada."⟩ := by
  refine ⟨by decide, by decide, ?_, ?_⟩
  · exact ⟨_, (c7_remove_party_cases c7wState c1xUser "c1" "p1" c7wContract
      rfl rfl).2.2 (by decide) (by decide)⟩
  · exact (c7_remove_party_cases c7wState c1xUser "c1" "zz" c7wContract
      rfl rfl).2.1 (by decide) (by decide)

/-- The version rows appended by a successful sequence of `update_content`
calls, starting when the contract's maximum version number is `m`. -/
def newVersionsFrom (user : UserContext) (contract_id : String) :
    Nat → List (String × String) → List Version
  | _, [] => []
  | m, (content, source) :: rest =>
      ⟨contract_id, m + 1, content, source, user.user_id⟩ ::
        newVersionsFrom user contract_id (m + 1) rest

theorem filteredVersions_add_version_self (s : DBState) (cid : String)
    (n : Nat) (content source created_by : String) :
    filteredVersions (add_version s cid n content source created_by) cid =
      filteredVersions s cid ++ [⟨cid, n, content, source, created_by⟩] := by
  simp [filteredVersions, add_version]

theorem maxVersion_add_version_self (s : DBState) (cid : String) (n : Nat)
    (content source created_by : String) :
    maxVersion (add_version s cid n content source created_by) cid =
      max (maxVersion s cid) n := by
  simp [maxVersion, filteredVersions_add_version_self]

/-- One successful `update_content` call appends exactly the version row
numbered max+1 and one audit entry. -/
theorem update_content_ok (s : DBState) (u : UserContext) (cid : String)
    (c : Contract) (hc : get_contract s cid = some c)
    (hown : c.owner_user_id = u.user_id) (content source : String) :
    update_content s u cid content source = Except.ok
      (log_activity
        (add_version s cid (maxVersion s cid + 1) content source u.user_id)
        cid (if source == "AI" then "GENERATED" else "UPDATED")
        u.user_id u.user_name
        [("version", JsonValue.num (maxVersion s cid + 1)),
         ("source", JsonValue.str source)]) := by
  unfold update_content
  rw [hc]
  simp [hown, get_next_version_number]

/-- A sequence of `update_content` calls on an owned contract succeeds and
appends exactly the rows `newVersionsFrom`, numbered consecutively from the
initial maximum version number. -/
theorem runUpdates_ok (u : UserContext) (cid : String) (c : Contract)
    (hown : c.owner_user_id = u.user_id) :
    ∀ (calls : List (String × String)) (s : DBState),
      get_contract s cid = some c →
      ∃ s', runUpdates u cid s calls = Except.ok s' ∧
        get_contract s' cid = some c ∧
        filteredVersions s' cid =
          filteredVersions s cid ++
            newVersionsFrom u cid (maxVersion s cid) calls := by
  intro calls
  induction calls with
  | nil =>
    intro s hc
    exact ⟨s, rfl, hc, by simp [newVersionsFrom]⟩
  | cons head rest ih =>
    intro s hc
    obtain ⟨content, source⟩ := head
    have hstep := update_content_ok s u cid c hc hown content source
    obtain ⟨s', hrun, hc', hfil⟩ := ih
      (log_activity
        (add_version s cid (maxVersion s cid + 1) content source u.user_id)
        cid (if source == "AI" then "GENERATED" else "UPDATED")
        u.user_id u.user_name
        [("version", JsonValue.num (maxVersion s cid + 1)),
         ("source", JsonValue.str source)]) hc
    refine ⟨s', ?_, hc', ?_⟩
    · simp only [runUpdates]
      rw [hstep]
      exact hrun
    · rw [hfil]
      have hf1 : filteredVersions
          (log_activity
            (add_version s cid (maxVersion s cid + 1) content source u.user_id)
            cid (if source == "AI" then "GENERATED" else "UPDATED")
            u.user_id u.user_name
            [("version", JsonValue.num (maxVersion s cid + 1)),
             ("source", JsonValue.str source)]) cid =
          filteredVersions s cid ++
            [⟨cid, maxVersion s cid + 1, content, source, u.user_id⟩] :=
        filteredVersions_add_version_self s cid (maxVersion s cid + 1)
          content source u.user_id
      have hm1 : maxVersion
          (log_activity
            (add_version s cid (maxVersion s cid + 1) content source u.user_id)
            cid (if source == "AI" then "GENERATED" else "UPDATED")
            u.user_id u.user_name
            [("version", JsonValue.num (maxVersion s cid + 1)),
             ("source", JsonValue.str source)]) cid =
          maxVersion s cid + 1 := by
        show maxVersion
          (add_version s cid (maxVersion s cid + 1) content source u.user_id)
          cid = maxVersion s cid + 1
        rw [maxVersion_add_version_self]
        exact Nat.max_eq_right (Nat.le_succ _)
      rw [hf1, hm1, List.append_assoc]
      simp [newVersionsFrom]

theorem newVersionsFrom_map_version (u : UserContext) (cid : String) :
    ∀ (calls : List (String × String)) (m : Nat),
      (newVersionsFrom u cid m calls).map (fun v => v.version) =
        List.range' (m + 1) calls.length := by
  intro calls
  induction calls with
  | nil => intro m; simp [newVersionsFrom]
  | cons head rest ih =>
    intro m
    obtain ⟨content, source⟩ := head
    simp [newVersionsFrom, List.range'_succ, ih (m + 1)]

/-- Folding the latest-version selection over consecutively numbered fresh
rows yields the last row (whose number is the count plus the start). -/
theorem foldl_pickLatest_newVersionsFrom (u : UserContext) (cid : String) :
    ∀ (calls : List (String × String)) (m : Nat) (acc : Option Version),
      (∀ w, acc = some w → w.version ≤ m) →
      (newVersionsFrom u cid m calls).foldl pickLatest acc =
        (match calls.getLast? with
         | none => acc
         | some (content, source) =>
             some ⟨cid, m + calls.length, content, source, u.user_id⟩) := by
  intro calls
  induction calls with
  | nil => intro m acc hacc; rfl
  | cons head rest ih =>
    intro m acc hacc
    obtain ⟨content, source⟩ := head
    have hstep : pickLatest acc ⟨cid, m + 1, content, source, u.user_id⟩ =
        some ⟨cid, m + 1, content, source, u.user_id⟩ := by
      cases acc with
      | none => rfl
      | some w =>
        have hw := hacc w rfl
        simp only [pickLatest]
        rw [if_pos]
        omega
    rw [newVersionsFrom, List.foldl_cons, hstep,
      ih (m + 1) _ (by intro w hw; cases hw; exact Nat.le_refl _)]
    cases rest with
    | nil => rfl
    | cons r rs =>
      rw [List.getLast?_cons_cons]
      cases hlast : (r :: rs).getLast? with
      | none => simp at hlast
      | some x =>
        obtain ⟨xc, xs⟩ := x
        simp
        omega

/-- Claim C4: starting from an owned contract with no versions, every
sequence of n one-at-a-time `update_content` calls succeeds and assigns the
version numbers 1, 2, ..., n exactly (each computed as max existing version,
or 0, plus 1), and the current content afterwards equals the content of the
version with the maximum number — the last call's content — or the empty
string when no call was made. -/
theorem c4_version_numbering_and_current_content (s : DBState)
    (u : UserContext) (cid : String) (c : Contract)
    (calls : List (String × String)) (s' : DBState)
    (hc : get_contract s cid = some c)
    (hown : c.owner_user_id = u.user_id)
    (hnov : filteredVersions s cid = [])
    (hrun : runUpdates u cid s calls = Except.ok s') :
    (filteredVersions s' cid).map (fun v => v.version) =
      List.range' 1 calls.length ∧
    currentContent s' cid =
      (match calls.getLast? with
       | none => ""
       | some (content, _) => content) := by
  obtain ⟨s'', hrun', hc', hfil⟩ := runUpdates_ok u cid c hown calls s hc
  rw [hrun] at hrun'
  injection hrun' with he
  subst he
  have hm : maxVersion s cid = 0 := by simp [maxVersion, hnov]
  rw [hnov, hm] at hfil
  simp only [List.nil_append] at hfil
  constructor
  · rw [hfil, newVersionsFrom_map_version]
  · unfold currentContent get_latest_version
    rw [hfil, foldl_pickLatest_newVersionsFrom u cid calls 0 none
      (by intro w hw; cases hw)]
    cases hlast : calls.getLast? with
    | none => rfl
    | some x =>
      obtain ⟨content, source⟩ := x
      simp

def c4wState : DBState :=
  { contracts := [c7wContract], versions := [], parties := [], logs := [] }

def c4wFinal : DBState :=
  (runUpdates c1xUser "c1" c4wState
    [("a", "USER"), ("b", "AI")]).toOption.getD c4wState

/-- Claim C4 witness: two content updates on a fresh contract produce the
version numbers [1, 2] and current content equal to the second call's
content. -/
theorem c4_version_numbering_and_current_content_witness :
    runUpdates c1xUser "c1" c4wState [("a", "USER"), ("b", "AI")] =
      Except.ok c4wFinal ∧
    (filteredVersions c4wFinal "c1").map (fun v => v.version) =
      List.range' 1 2 ∧
    currentContent c4wFinal "c1" = "b" := by
  have h := c4_version_numbering_and_current_content c4wState c1xUser "c1"
    c7wContract [("a", "USER"), ("b", "AI")] c4wFinal rfl rfl rfl rfl
  exact ⟨rfl, h.1, h.2⟩

/-- The party rows created by the duplication loop, with generated ids. -/
def copiedList (new_contract_id : String) (pid_gen : Nat → String) :
    Nat → List Party → List Party
  | _, [] => []
  | k, p :: ps =>
      ⟨pid_gen k, new_contract_id, p.role, p.name, p.email, "PENDING",
        p.signing_order⟩ :: copiedList new_contract_id pid_gen (k + 1) ps

theorem copyParties_eq (nid : String) (gen : Nat → String) :
    ∀ (ps : List Party) (k : Nat) (s0 : DBState),
      copyParties nid gen k ps s0 =
        { s0 with parties := s0.parties ++ copiedList nid gen k ps } := by
  intro ps
  induction ps with
  | nil => intro k s0; simp [copyParties, copiedList]
  | cons p rest ih =>
    intro k s0
    rw [copyParties, ih, copiedList]
    simp [add_party]

theorem copiedList_filter_self (nid : String) (gen : Nat → String) :
    ∀ (ps : List Party) (k : Nat),
      (copiedList nid gen k ps).filter (fun p => p.contract_id == nid) =
        copiedList nid gen k ps := by
  intro ps
  induction ps with
  | nil => intro k; rfl
  | cons p rest ih =>
    intro k
    simp [copiedList, ih (k + 1)]

theorem copiedList_map_data (nid : String) (gen : Nat → String) :
    ∀ (ps : List Party) (k : Nat),
      (copiedList nid gen k ps).map (fun p =>
          (p.role, p.name, p.email, p.signing_order, p.signature_status)) =
        ps.map (fun p =>
          (p.role, p.name, p.email, p.signing_order, "PENDING")) := by
  intro ps
  induction ps with
  | nil => intro k; rfl
  | cons p rest ih =>
    intro k
    simp [copiedList, ih (k + 1)]

def c6xState : DBState :=
  { contracts := [c1xContract], versions := [],
    parties := [⟨"p1", "c1", "HOST", "A", "a@example.com", "PENDING", 1⟩],
    logs := [] }

def c6xFinal : DBState :=
  (duplicate_contract c6xState c1xUser "c1" "c2"
    (fun _ => "q")).toOption.getD c6xState

/-- Claim C6 counterexample: contract `c1` is owned by the requester and has
no versions, so its current content is the empty string.  The claim predicts
the duplicate has exactly one version numbered 1 whose content equals that
current content, but `duplicate_contract` only copies a version when the
source has one: the duplicate `c2` ends with zero versions. -/
theorem c6_counterexample :
    get_contract c6xState "c1" = some c1xContract ∧
    c1xContract.owner_user_id = c1xUser.user_id ∧
    filteredVersions c6xState "c1" = [] ∧
    currentContent c6xState "c1" = "" ∧
    duplicate_contract c6xState c1xUser "c1" "c2" (fun _ => "q") =
      Except.ok c6xFinal ∧
    filteredVersions c6xFinal "c2" = [] :=
  ⟨rfl, rfl, rfl, rfl, rfl, rfl⟩

/-- Claim C6 (amended): for a contract owned by the requester, whatever its
status, `duplicate_contract` with fresh database-generated ids creates a new
contract in DRAFT status with the same title, type, template and metadata;
the duplicate carries exactly one version numbered 1 with the source's
current content when the source has at least one version, and no version
otherwise; and its parties are copies of the source's parties (same role,
name, email and signing order) each with signature_status PENDING. -/
theorem c6_amended_duplicate_effects (s : DBState) (u : UserContext)
    (cid new_id : String) (pid_gen : Nat → String) (c : Contract)
    (hc : get_contract s cid = some c)
    (hown : c.owner_user_id = u.user_id)
    (hfc : ∀ d ∈ s.contracts, d.id ≠ new_id)
    (hfv : filteredVersions s new_id = [])
    (hfp : s.parties.filter (fun p => p.contract_id == new_id) = []) :
    ∃ s', duplicate_contract s u cid new_id pid_gen = Except.ok s' ∧
      get_contract s' new_id = some
        { id := new_id, title := c.title, contract_type := c.contract_type,
          template_id := c.template_id, owner_user_id := u.user_id,
          status := "DRAFT", metadata := c.metadata, signed_at := none,
          deleted_at := none } ∧
      filteredVersions s' new_id =
        (match get_latest_version s cid with
         | some lv => [⟨new_id, 1, lv.content, "USER", u.user_id⟩]
         | none => []) ∧
      (s'.parties.filter (fun p => p.contract_id == new_id)).map (fun p =>
          (p.role, p.name, p.email, p.signing_order, p.signature_status)) =
        (list_parties s cid).map (fun p =>
          (p.role, p.name, p.email, p.signing_order, "PENDING")) := by
  have hfind : ∀ rest : List Contract,
      (s.contracts ++
        ({ id := new_id, title := c.title, contract_type := c.contract_type,
           template_id := c.template_id, owner_user_id := u.user_id,
           status := "DRAFT", metadata := c.metadata, signed_at := none,
           deleted_at := none } : Contract) :: rest).find?
          (fun d => d.id == new_id && d.deleted_at.isNone) = some
        { id := new_id, title := c.title, contract_type := c.contract_type,
          template_id := c.template_id, owner_user_id := u.user_id,
          status := "DRAFT", metadata := c.metadata, signed_at := none,
          deleted_at := none } := by
    intro rest
    rw [List.find?_append]
    have hnone : s.contracts.find?
        (fun d => d.id == new_id && d.deleted_at.isNone) = none := by
      rw [List.find?_eq_none]
      intro d hd
      simp [hfc d hd]
    rw [hnone]
    simp [List.find?_cons]
  have hfv' : s.versions.filter (fun v => v.contract_id == new_id) = [] := hfv
  cases hlv : get_latest_version s cid with
  | some lv =>
    have hdup : duplicate_contract s u cid new_id pid_gen = Except.ok
        { contracts := s.contracts ++
            [{ id := new_id, title := c.title,
               contract_type := c.contract_type,
               template_id := c.template_id, owner_user_id := u.user_id,
               status := "DRAFT", metadata := c.metadata, signed_at := none,
               deleted_at := none }],
          versions := s.versions ++
            [⟨new_id, 1, lv.content, "USER", u.user_id⟩],
          parties := s.parties ++
            copiedList new_id pid_gen 0 (list_parties s cid),
          logs := s.logs ++
            [⟨new_id, "CREATED", u.user_id, u.user_name,
              [("duplicatedFrom", JsonValue.str cid)]⟩] } := by
      unfold duplicate_contract
      rw [hc]
      have hglv : get_latest_version
          (create_contract s new_id c.title c.contract_type c.template_id
            u.user_id c.metadata) cid = some lv := hlv
      simp only [hown, bne_self_eq_false, Bool.false_eq_true, if_false,
        hglv]
      rw [copyParties_eq]
      rfl
    refine ⟨_, hdup, ?_, ?_, ?_⟩
    · exact hfind []
    · show ((s.versions ++
          [(⟨new_id, 1, lv.content, "USER", u.user_id⟩ : Version)]).filter
          (fun v => v.contract_id == new_id)) = _
      simp [List.filter_append, hfv']
    · show ((s.parties ++
          copiedList new_id pid_gen 0 (list_parties s cid)).filter
          (fun p => p.contract_id == new_id)).map _ = _
      rw [List.filter_append, hfp, copiedList_filter_self]
      simp [copiedList_map_data]
  | none =>
    have hdup : duplicate_contract s u cid new_id pid_gen = Except.ok
        { contracts := s.contracts ++
            [{ id := new_id, title := c.title,
               contract_type := c.contract_type,
               template_id := c.template_id, owner_user_id := u.user_id,
               status := "DRAFT", metadata := c.metadata, signed_at := none,
               deleted_at := none }],
          versions := s.versions,
          parties := s.parties ++
            copiedList new_id pid_gen 0 (list_parties s cid),
          logs := s.logs ++
            [⟨new_id, "CREATED", u.user_id, u.user_name,
              [("duplicatedFrom", JsonValue.str cid)]⟩] } := by
      unfold duplicate_contract
      rw [hc]
      have hglv : get_latest_version
          (create_contract s new_id c.title c.contract_type c.template_id
            u.user_id c.metadata) cid = none := hlv
      simp only [hown, bne_self_eq_false, Bool.false_eq_true, if_false,
        hglv]
      rw [copyParties_eq]
      rfl
    refine ⟨_, hdup, ?_, ?_, ?_⟩
    · exact hfind []
    · show (s.versions.filter (fun v => v.contract_id == new_id)) = _
      simp [hfv']
    · show ((s.parties ++
          copiedList new_id pid_gen 0 (list_parties s cid)).filter
          (fun p => p.contract_id == new_id)).map _ = _
      rw [List.filter_append, hfp, copiedList_filter_self]
      simp [copiedList_map_data]

def c6wState : DBState :=
  { contracts := [c7wContract],
    versions := [⟨"c1", 2, "v2", "AI", "u1"⟩],
    parties := [⟨"p1", "c1", "HOST", "A", "a@example.com", "SIGNED", 1⟩],
    logs := [] }

/-- Claim C6 witness: duplicating a SIGNING contract with one version and one
SIGNED party succeeds; the duplicate carries exactly version 1 with the
source's current content. -/
theorem c6_amended_duplicate_effects_witness :
    (∀ d ∈ c6wState.contracts, d.id ≠ "c2") ∧
    ∃ s', duplicate_contract c6wState c1xUser "c1" "c2" (fun _ => "q") =
        Except.ok s' ∧
      filteredVersions s' "c2" = [⟨"c2", 1, "v2", "USER", "u1"⟩] := by
  obtain ⟨s', hdup, hgc, hfil, hparties⟩ :=
    c6_amended_duplicate_effects c6wState c1xUser "c1" "c2" (fun _ => "q")
      c7wContract rfl rfl (by decide) rfl rfl
  refine ⟨by decide, s', hdup, ?_⟩
  rw [hfil]
  rfl

end Contractify
